import Mathlib

/-!
Shallow embedding of `src/main.ts` (MVola API wrapper for Deno Deploy).

The TypeScript module exports a single `fetch` handler dispatching on the
request pathname, plus two helpers `authenticateMvola` and
`initiateMvolaPayment` that call external HTTP endpoints.  External effects
(the token endpoint's reply, the merchant-pay endpoint's reply, the clock)
are modelled as an oracle `World`; the handler additionally returns the list
of calls it made to the merchant-pay endpoint, so that claims about what is
(or is not) transmitted to the provider can be stated.

JavaScript dynamic values flowing through `request.json()` are modelled by a
small `Json` inductive; a body that is not valid JSON is an `Except.error`
carrying the exception message.  Exceptions caught by the handler's
top-level `try/catch` are modelled by `Except` in `handlerCore`.
-/

set_option autoImplicit false

namespace MvolaWrapper

/-- JSON values, as produced by `request.json()` / `response.json()`.
Numbers are modelled as integers; no claim involves fractional values
(amounts are strings in the MVola API). -/
inductive Json where
  | null
  | bool (b : Bool)
  | num (n : Int)
  | str (s : String)
  | arr (elems : List Json)
  | obj (fields : List (String × Json))

/-- JavaScript property read `j["k"]`: `none` models `undefined`.
JSON arrays and primitives have no string-keyed own properties. -/
def Json.getField : Json → String → Option Json
  | .obj fs, k => (fs.find? (fun p => p.1 == k)).map (fun p => p.2)
  | _, _ => none

/-- Update or insert a key in an association list (used by `Json.setField`). -/
def setInFields (fs : List (String × Json)) (k : String) (v : Json) :
    List (String × Json) :=
  match fs with
  | [] => [(k, v)]
  | (k0, v0) :: rest =>
    if k0 == k then (k0, v) :: rest else (k0, v0) :: setInFields rest k v

/-- JavaScript property assignment `j["k"] = v` on an object.
On non-objects it is the identity (the cases where assignment throws or is
invisible to `JSON.stringify` are handled at the call site,
`forceCorrelationFields`). -/
def Json.setField : Json → String → Json → Json
  | .obj fs, k, v => .obj (setInFields fs k v)
  | j, _, _ => j

/-- The MVola sandbox configuration object.  `CONSUMER_KEY` and
`CONSUMER_SECRET` come from environment variables (defaulting to `""`), so
the model is parametrised by them. -/
structure MvolaConfig where
  BASE_URL : String
  TOKEN_ENDPOINT : String
  MERCHANT_PAY_ENDPOINT : String
  CONSUMER_KEY : String
  CONSUMER_SECRET : String

/-- `MVOLA_CONFIG` from `src/main.ts`, with the two credential fields
supplied by the environment. -/
def MVOLA_CONFIG (key secret : String) : MvolaConfig :=
  { BASE_URL := "https://devapi.mvola.mg"
    TOKEN_ENDPOINT := "/token"
    MERCHANT_PAY_ENDPOINT := "/mvola/mm/transactions/type/merchantpay/1.0.0/"
    CONSUMER_KEY := key
    CONSUMER_SECRET := secret }

/-- The `MvolaAuthResponse` interface: shape of a successful token reply. -/
structure MvolaAuthResponse where
  access_token : String
  scope : String
  token_type : String
  expires_in : Int

/-- Outcome of the `fetch` to the token endpoint inside `authenticateMvola`:
the transport may throw, the HTTP status may be non-success, the body may
fail to parse as JSON, or everything may succeed. -/
inductive TokenOutcome where
  | transportError (msg : String)
  | httpError (status : Nat) (bodyText : String)
  | okBadJson (msg : String)
  | okJson (resp : MvolaAuthResponse)

/-- `true` exactly on the three failure constructors of `TokenOutcome`
(non-success HTTP status, transport-level error, body not valid JSON). -/
def TokenOutcome.isFail : TokenOutcome → Bool
  | .okJson _ => false
  | _ => true

/-- Outcome of the `fetch` to the merchant-pay endpoint inside
`initiateMvolaPayment`: either the transport throws, or the provider replies
with a status and a body that parses as JSON (`Except.ok`) or does not
(`Except.error`, carrying the parse-exception message). -/
inductive MerchantOutcome where
  | transportError (msg : String)
  | reply (status : Nat) (body : Except String Json)

/-- Oracle for the external effects of one request: what the token endpoint
and the merchant-pay endpoint would answer, and the current timestamp
(`new Date().toISOString()` in the `/test` route). -/
structure World where
  tokenOutcome : TokenOutcome
  merchantOutcome : MerchantOutcome
  nowIso : String

/-- `authenticateMvola` from `src/main.ts`: returns the parsed token
response, or `null` (here `none`) when the response is not ok
(`!response.ok`), or when the `fetch` or the JSON parse throws (both are
caught by the function's own `catch`). -/
def authenticateMvola (w : World) : Option MvolaAuthResponse :=
  match w.tokenOutcome with
  | .transportError _ => none
  | .httpError _ _ => none
  | .okBadJson _ => none
  | .okJson resp => some resp

/-- The message of the JavaScript `TypeError` raised by reading property
`prop` of `undefined` or `null` (`kind`). -/
def cannotReadMsg (kind prop : String) : String :=
  "Cannot read properties of " ++ kind ++ " (reading \x27" ++ prop ++ "\x27)"

/-- Evaluation of the JavaScript expression
`paymentData.debitParty[0].value` appearing in the header construction of
`initiateMvolaPayment`: `ok` when it evaluates without throwing, `error`
with the `TypeError` message when it throws.  Reading `[0]` throws on
`undefined`/`null`; on a number or boolean it yields `undefined` (whose
`.value` then throws); on a string it yields the first character unless the
string is empty; an object can carry a `"0"` key; reading `.value` throws
exactly on `undefined` and `null`. -/
def debitPartyAccess (j : Json) : Except String Unit :=
  match j.getField "debitParty" with
  | none => .error (cannotReadMsg "undefined" "0")
  | some .null => .error (cannotReadMsg "null" "0")
  | some (.num _) => .error (cannotReadMsg "undefined" "value")
  | some (.bool _) => .error (cannotReadMsg "undefined" "value")
  | some (.str s) =>
    if s.isEmpty then .error (cannotReadMsg "undefined" "value") else .ok ()
  | some (.arr elems) =>
    match elems.head? with
    | none => .error (cannotReadMsg "undefined" "value")
    | some .null => .error (cannotReadMsg "null" "value")
    | some _ => .ok ()
  | some (.obj fs) =>
    match ((fs.find? (fun p => p.1 == "0")).map (fun p => p.2) : Option Json) with
    | none => .error (cannotReadMsg "undefined" "value")
    | some .null => .error (cannotReadMsg "null" "value")
    | some _ => .ok ()

/-- One call transmitted to the provider's merchant-pay endpoint: the URL,
the bearer token of the `Authorization` header, and the request body
(`JSON.stringify(paymentData)` is modelled by the `Json` value itself).
The remaining fixed headers carry no claim-relevant data. -/
structure MerchantCall where
  url : String
  bearer : String
  body : Json

/-- The `{status, data}` record returned by `initiateMvolaPayment`. -/
structure PaymentResult where
  status : Nat
  data : Json

/-- `initiateMvolaPayment` from `src/main.ts`.  Inside its `try`: the
header construction reads `paymentData.debitParty[0].value` (which may
throw), then the merchant-pay endpoint is fetched, then the reply body is
parsed as JSON.  Every exception is caught by the function's own `catch`,
which returns `{status: 500, data: {error: error.message}}`.  The second
component is the list of calls made to the merchant-pay endpoint. -/
def initiateMvolaPayment (cfg : MvolaConfig) (paymentData : Json)
    (accessToken : String) (w : World) : PaymentResult × List MerchantCall :=
  match debitPartyAccess paymentData with
  | .error msg => (⟨500, .obj [("error", .str msg)]⟩, [])
  | .ok _ =>
    let call : MerchantCall :=
      { url := cfg.BASE_URL ++ cfg.MERCHANT_PAY_ENDPOINT
        bearer := accessToken
        body := paymentData }
    match w.merchantOutcome with
    | .transportError msg => (⟨500, .obj [("error", .str msg)]⟩, [call])
    | .reply _ (.error msg) => (⟨500, .obj [("error", .str msg)]⟩, [call])
    | .reply status (.ok body) => (⟨status, body⟩, [call])

/-- An inbound request, as the handler sees it: method, `pathname` and
`searchParams` of the parsed URL, and the result of `request.json()`
(`Except.error` carries the exception message of an invalid JSON body). -/
structure Request where
  method : String
  pathname : String
  query : String
  body : Except String Json

/-- A response body: `new Response(null, ...)`, a plain-text body, or
`JSON.stringify` of a JSON value. -/
inductive RespBody where
  | none
  | text (s : String)
  | json (j : Json)

/-- A constructed `Response`: HTTP status, headers, body. -/
structure JsResponse where
  status : Nat
  headers : List (String × String)
  body : RespBody

/-- The `corsHeaders` object of the handler. -/
def corsHeaders : List (String × String) :=
  [("Access-Control-Allow-Origin", "*"),
   ("Access-Control-Allow-Methods", "GET, POST, OPTIONS"),
   ("Access-Control-Allow-Headers", "Content-Type, Authorization")]

/-- `new Response(body, {status, headers: {...corsHeaders, ...extra}})`. -/
def respond (status : Nat) (extra : List (String × String)) (body : RespBody) :
    JsResponse :=
  { status := status, headers := corsHeaders ++ extra, body := body }

/-- The `Content-Type: text/plain` header entry. -/
def ctText : List (String × String) := [("Content-Type", "text/plain")]

/-- The `Content-Type: application/json` header entry. -/
def ctJson : List (String × String) := [("Content-Type", "application/json")]

/-- The plain-text banner returned by the `/` route. -/
def banner : String :=
  "🚀 MVola API Wrapper is running!\n\nEndpoints:\n- GET /test\n- POST /auth\n- POST /payment\n- GET /status\n- POST /webhook"

/-- Body of the `/test` route's JSON response. -/
def testBody (cfg : MvolaConfig) (w : World) : Json :=
  .obj [("message", .str "✅ API is working!"),
        ("timestamp", .str w.nowIso),
        ("config", .obj
          [("baseUrl", .str cfg.BASE_URL),
           ("hasCredentials",
            .bool ((cfg.CONSUMER_KEY != "") && (cfg.CONSUMER_SECRET != "")))])]

/-- The `{error: "Authentication failed"}` body. -/
def authFailedBody : Json := .obj [("error", .str "Authentication failed")]

/-- The JSON body of a successful `/auth` response. -/
def authOkBody (a : MvolaAuthResponse) : Json :=
  .obj [("success", .bool true),
        ("token", .str a.access_token),
        ("expires_in", .num a.expires_in)]

/-- `JSON.stringify(paymentResult)` for the `/payment` response body. -/
def paymentResultJson (r : PaymentResult) : Json :=
  .obj [("status", .num (Int.ofNat r.status)), ("data", r.data)]

/-- The message of the strict-mode `TypeError` raised by assigning a
property on a JSON primitive (the `/payment` route assigns
`paymentRequest.requestDate = ""` on whatever `request.json()` returned). -/
def strictAssignMsg (kind : String) : String :=
  "Cannot create property \x27requestDate\x27 on " ++ kind

/-- The three correlation-field assignments of the `/payment` route
(`requestDate`, `requestingOrganisationTransactionReference`,
`originalTransactionReference`, each set to `""`).  On an object the fields
are overwritten or created; on an array the assignments succeed but the
created properties are invisible to `JSON.stringify`, so the transmitted
value is unchanged; on a primitive the first assignment throws a
strict-mode `TypeError` (propagating to the top-level `catch`). -/
def forceCorrelationFields : Json → Except String Json
  | .obj fs =>
    let j1 := (Json.obj fs).setField "requestDate" (.str "")
    let j2 := j1.setField "requestingOrganisationTransactionReference" (.str "")
    .ok (j2.setField "originalTransactionReference" (.str ""))
  | .arr elems => .ok (.arr elems)
  | .null => .error (strictAssignMsg "null")
  | .bool _ => .error (strictAssignMsg "boolean")
  | .num _ => .error (strictAssignMsg "number")
  | .str s => .error (strictAssignMsg ("string \x27" ++ s ++ "\x27"))

/-- The body of the handler's `try` block: the `switch` on `pathname`.
`Except.error` models an exception reaching the top-level `catch`. -/
def handlerCore (cfg : MvolaConfig) (w : World) (r : Request) :
    Except String (JsResponse × List MerchantCall) :=
  match r.pathname with
  | "/" => .ok (respond 200 ctText (.text banner), [])
  | "/test" => .ok (respond 200 ctJson (.json (testBody cfg w)), [])
  | "/auth" =>
    if r.method != "POST" then
      .ok (respond 405 [] (.text "Method not allowed"), [])
    else
      match authenticateMvola w with
      | none => .ok (respond 401 ctJson (.json authFailedBody), [])
      | some a => .ok (respond 200 ctJson (.json (authOkBody a)), [])
  | "/payment" =>
    if r.method != "POST" then
      .ok (respond 405 [] (.text "Method not allowed"), [])
    else
      match authenticateMvola w with
      | none => .ok (respond 401 ctJson (.json authFailedBody), [])
      | some a =>
        match r.body with
        | .error msg => .error msg
        | .ok j =>
          match forceCorrelationFields j with
          | .error msg => .error msg
          | .ok j2 =>
            let pr := initiateMvolaPayment cfg j2 a.access_token w
            .ok (respond pr.1.status ctJson (.json (paymentResultJson pr.1)),
                 pr.2)
  | "/webhook" =>
    if r.method != "POST" then
      .ok (respond 405 [] (.text "Method not allowed"), [])
    else
      match r.body with
      | .error msg => .error msg
      | .ok _ =>
        .ok (respond 200 ctJson (.json (.obj [("received", .bool true)])), [])
  | _ => .ok (respond 404 [] (.text "Not Found"), [])

/-- The exported `fetch` handler: OPTIONS preflight is answered before the
`try` block; otherwise the `switch` runs under the top-level `try/catch`,
whose `catch` produces the 500 `Internal server error` response.  The
second component is the list of merchant-pay calls made while handling the
request (none can have been made when an exception reaches the catch). -/
def fetch (cfg : MvolaConfig) (w : World) (r : Request) :
    JsResponse × List MerchantCall :=
  if r.method == "OPTIONS" then
    ({ status := 200, headers := corsHeaders, body := .none }, [])
  else
    match handlerCore cfg w r with
    | .ok out => out
    | .error msg =>
      (respond 500 ctJson
        (.json (.obj [("error", .str "Internal server error"),
                      ("message", .str msg)])), [])

/-- Does this JSON value have shape `{key: string, value: string}`? -/
def isKV (j : Json) : Bool :=
  match j.getField "key", j.getField "value" with
  | some (.str _), some (.str _) => true
  | _, _ => false

/-- Is this JSON value an array of `{key, value}` string pairs? -/
def isKVArr : Json → Bool
  | .arr elems => elems.all isKV
  | _ => false

/-- Does field `k` of `j` exist and hold a string? -/
def hasStrField (j : Json) (k : String) : Bool :=
  match j.getField k with
  | some (.str _) => true
  | _ => false

/-- Is field `k` of `j` absent, or a string?  (Optional string field.) -/
def optStrField (j : Json) (k : String) : Bool :=
  match j.getField k with
  | none => true
  | some (.str _) => true
  | _ => false

/-- Does field `k` of `j` exist and hold a `{key, value}`-pair array? -/
def kvArrField (j : Json) (k : String) : Bool :=
  match j.getField k with
  | some d => isKVArr d
  | none => false

/-- Does this JSON value conform to the `MvolaPaymentRequest` interface?
(`amount`, `currency`, `descriptionText` strings; `debitParty`,
`creditParty`, `metadata` arrays of `{key, value}` string pairs; the three
correlation fields optional strings, on an object value.) -/
def isPaymentRequest (j : Json) : Bool :=
  (match j with | .obj _ => true | _ => false)
  && hasStrField j "amount" && hasStrField j "currency"
  && hasStrField j "descriptionText"
  && kvArrField j "debitParty" && kvArrField j "creditParty"
  && kvArrField j "metadata"
  && optStrField j "requestDate"
  && optStrField j "requestingOrganisationTransactionReference"
  && optStrField j "originalTransactionReference"


/-! ### Association-list lemmas for `Json.setField` / `Json.getField` -/

/-- Looking up the key just written by `setInFields` yields the new value. -/
theorem find?_setInFields_self (fs : List (String × Json)) (k : String)
    (v : Json) :
    ((setInFields fs k v).find? (fun p => p.1 == k)).map (fun p => p.2)
      = some v := by
  induction fs with
  | nil => simp [setInFields, List.find?]
  | cons hd tl ih =>
    obtain ⟨k0, v0⟩ := hd
    by_cases hk : (k0 == k) = true
    · simp [setInFields, hk, List.find?]
    · simp only [setInFields, Bool.not_eq_true] at hk ⊢
      simp [hk, List.find?, ih]

/-- Writing key `k` does not change lookups of a different key `k2`. -/
theorem find?_setInFields_ne (fs : List (String × Json)) (k k2 : String)
    (v : Json) (h : k ≠ k2) :
    (setInFields fs k v).find? (fun p => p.1 == k2)
      = fs.find? (fun p => p.1 == k2) := by
  induction fs with
  | nil =>
    simp [setInFields, List.find?, beq_eq_false_iff_ne.mpr h]
  | cons hd tl ih =>
    obtain ⟨k0, v0⟩ := hd
    by_cases hk : (k0 == k) = true
    · have hk0 : k0 = k := eq_of_beq hk
      subst hk0
      simp [setInFields, List.find?, beq_eq_false_iff_ne.mpr h]
    · simp only [Bool.not_eq_true] at hk
      simp [setInFields, hk, List.find?, ih]

/-- Reading the field just assigned by `Json.setField` on an object. -/
theorem getField_setField_self (fs : List (String × Json)) (k : String)
    (v : Json) : ((Json.obj fs).setField k v).getField k = some v := by
  simp [Json.setField, Json.getField, find?_setInFields_self]

/-- Assigning one field of an object leaves the other fields unchanged. -/
theorem getField_setField_ne (fs : List (String × Json)) (k k2 : String)
    (v : Json) (h : k ≠ k2) :
    ((Json.obj fs).setField k v).getField k2 = (Json.obj fs).getField k2 := by
  simp [Json.setField, Json.getField, find?_setInFields_ne fs k k2 v h]

/-- The effect of the three correlation-field assignments of the `/payment`
route on an object body: the three fields become `""`, no other field
changes, and the result is still an object. -/
theorem forceCorrelationFields_obj (fs : List (String × Json)) :
    ∃ fs2, forceCorrelationFields (.obj fs) = .ok (.obj fs2)
      ∧ (Json.obj fs2).getField "requestDate" = some (.str "")
      ∧ (Json.obj fs2).getField "requestingOrganisationTransactionReference"
          = some (.str "")
      ∧ (Json.obj fs2).getField "originalTransactionReference"
          = some (.str "")
      ∧ ∀ k, k ≠ "requestDate"
          → k ≠ "requestingOrganisationTransactionReference"
          → k ≠ "originalTransactionReference"
          → (Json.obj fs2).getField k = (Json.obj fs).getField k := by
  refine ⟨setInFields (setInFields (setInFields fs "requestDate" (.str ""))
      "requestingOrganisationTransactionReference" (.str ""))
      "originalTransactionReference" (.str ""), rfl, ?_, ?_, ?_, ?_⟩
  · show (((setInFields (setInFields (setInFields fs "requestDate" (.str ""))
        "requestingOrganisationTransactionReference" (.str ""))
        "originalTransactionReference" (.str "")).find?
          (fun p => p.1 == "requestDate")).map (fun p => p.2))
      = some (.str "")
    rw [find?_setInFields_ne _ "originalTransactionReference" "requestDate" _
      (by decide)]
    rw [find?_setInFields_ne _ "requestingOrganisationTransactionReference"
      "requestDate" _ (by decide)]
    exact find?_setInFields_self fs "requestDate" (.str "")
  · show (((setInFields (setInFields (setInFields fs "requestDate" (.str ""))
        "requestingOrganisationTransactionReference" (.str ""))
        "originalTransactionReference" (.str "")).find?
          (fun p => p.1 == "requestingOrganisationTransactionReference")).map
            (fun p => p.2))
      = some (.str "")
    rw [find?_setInFields_ne _ "originalTransactionReference"
      "requestingOrganisationTransactionReference" _ (by decide)]
    exact find?_setInFields_self _
      "requestingOrganisationTransactionReference" (.str "")
  · exact find?_setInFields_self _ "originalTransactionReference" (.str "")
  · intro k hk1 hk2 hk3
    show (((setInFields (setInFields (setInFields fs "requestDate" (.str ""))
        "requestingOrganisationTransactionReference" (.str ""))
        "originalTransactionReference" (.str "")).find?
          (fun p => p.1 == k)).map (fun p => p.2))
      = (Json.obj fs).getField k
    rw [find?_setInFields_ne _ "originalTransactionReference" k _
      (Ne.symm hk3)]
    rw [find?_setInFields_ne _ "requestingOrganisationTransactionReference" k _
      (Ne.symm hk2)]
    rw [find?_setInFields_ne _ "requestDate" k _ (Ne.symm hk1)]
    rfl

/-! ### Concrete fixtures used by witnesses and counterexamples -/

/-- A sample configuration with non-empty credentials. -/
def exampleConfig : MvolaConfig := MVOLA_CONFIG "consumerKey" "consumerSecret"

/-- A sample successful token reply. -/
def exampleAuth : MvolaAuthResponse :=
  { access_token := "tok123", scope := "EXT_INT_MVOLA_SCOPE",
    token_type := "Bearer", expires_in := 3600 }

/-- A world where both the token endpoint and the merchant-pay endpoint
answer successfully. -/
def worldOk : World :=
  { tokenOutcome := .okJson exampleAuth
    merchantOutcome := .reply 200 (.ok (.obj [("status", .str "pending")]))
    nowIso := "2026-10-11T00:00:00.000Z" }

/-- A world where the token endpoint answers with a non-success status. -/
def worldAuthFail : World :=
  { tokenOutcome := .httpError 401 "invalid credentials"
    merchantOutcome := .reply 200 (.ok .null)
    nowIso := "2026-10-11T00:00:00.000Z" }

/-- A well-formed `MvolaPaymentRequest` body whose correlation fields are
all non-empty. -/
def examplePayment : Json :=
  .obj [("amount", .str "1000"), ("currency", .str "Ar"),
        ("descriptionText", .str "test payment"),
        ("debitParty",
          .arr [.obj [("key", .str "msisdn"), ("value", .str "0343500003")]]),
        ("creditParty",
          .arr [.obj [("key", .str "msisdn"), ("value", .str "0343500004")]]),
        ("metadata", .arr []),
        ("requestDate", .str "2026-10-11T08:00:00.000Z"),
        ("requestingOrganisationTransactionReference", .str "ref-12345"),
        ("originalTransactionReference", .str "orig-67890")]

/-- A well-formed `MvolaPaymentRequest` body whose `debitParty` list is
empty. -/
def emptyDebitPayment : Json :=
  .obj [("amount", .str "1000"), ("currency", .str "Ar"),
        ("descriptionText", .str "test payment"),
        ("debitParty", .arr []),
        ("creditParty", .arr []),
        ("metadata", .arr [])]

/-! ### Helper: every branch of the handler spreads `corsHeaders` -/

/-- Every successful outcome of the `switch` body has headers of the form
`corsHeaders ++ extra` (each `Response` is built by spreading
`corsHeaders`). -/
theorem handlerCore_cors (cfg : MvolaConfig) (w : World) (r : Request)
    (out : JsResponse × List MerchantCall) (h : handlerCore cfg w r = .ok out) :
    ∃ e, out.1.headers = corsHeaders ++ e := by
  unfold handlerCore at h
  repeat' split at h
  all_goals first
    | (injection h with h2; subst h2; exact ⟨_, rfl⟩)
    | simp at h

/-! ### Claim theorems -/

/-- C7: every response produced by the handler — for every path, method and
outcome, including the preflight, 401, 404, 405 and 500 responses — carries
the three CORS headers `Access-Control-Allow-Origin: *`,
`Access-Control-Allow-Methods: GET, POST, OPTIONS` and
`Access-Control-Allow-Headers: Content-Type, Authorization`. -/
theorem all_responses_have_cors (cfg : MvolaConfig) (w : World) (r : Request) :
    ("Access-Control-Allow-Origin", "*") ∈ (fetch cfg w r).1.headers
    ∧ ("Access-Control-Allow-Methods", "GET, POST, OPTIONS")
        ∈ (fetch cfg w r).1.headers
    ∧ ("Access-Control-Allow-Headers", "Content-Type, Authorization")
        ∈ (fetch cfg w r).1.headers := by
  have hshape : ∃ e, (fetch cfg w r).1.headers = corsHeaders ++ e := by
    unfold fetch
    split
    · exact ⟨[], (List.append_nil _).symm⟩
    · split
      · rename_i out hOk
        exact handlerCore_cors cfg w r out hOk
      · exact ⟨_, rfl⟩
  obtain ⟨e, he⟩ := hshape
  rw [he]
  refine ⟨?_, ?_, ?_⟩ <;> exact List.mem_append_left e (by simp [corsHeaders])

/-- C10: the handler never consults the URL query string: two requests that
are identical except for their query part produce the same response and the
same provider calls, so query parameters cannot influence routing or any
response. -/
theorem query_string_irrelevant (cfg : MvolaConfig) (w : World)
    (m p q1 q2 : String) (b : Except String Json) :
    fetch cfg w ⟨m, p, q1, b⟩ = fetch cfg w ⟨m, p, q2, b⟩ := rfl

/-- C5: every `POST /webhook` request whose body parses as JSON is
acknowledged with status 200 and body `{received: true}`, for every JSON
body shape, with no business logic applied (and no provider call made). -/
theorem webhook_always_ack (cfg : MvolaConfig) (w : World) (q : String)
    (j : Json) :
    (fetch cfg w ⟨"POST", "/webhook", q, .ok j⟩).1.status = 200
    ∧ (fetch cfg w ⟨"POST", "/webhook", q, .ok j⟩).1.body
        = .json (.obj [("received", .bool true)])
    ∧ (fetch cfg w ⟨"POST", "/webhook", q, .ok j⟩).2 = [] :=
  ⟨rfl, rfl, rfl⟩

/-- C9: although the root banner advertises a `GET /status` endpoint (the
banner string contains `GET /status`), no `/status` route exists: every
non-OPTIONS request to `/status` falls through to the default case and
returns status 404 with body `Not Found`. -/
theorem status_route_not_found (cfg : MvolaConfig) (w : World)
    (m q : String) (b : Except String Json) (ho : m ≠ "OPTIONS") :
    (fetch cfg w ⟨m, "/status", q, b⟩).1.status = 404
    ∧ (fetch cfg w ⟨m, "/status", q, b⟩).1.body = .text "Not Found"
    ∧ banner
        = "🚀 MVola API Wrapper is running!\n\nEndpoints:\n- GET /test\n- POST /auth\n- POST /payment\n- "
          ++ "GET /status" ++ "\n- POST /webhook"
    ∧ (fetch cfg w ⟨"GET", "/", q, b⟩).1.body = .text banner := by
  have hne : (m == "OPTIONS") = false := beq_eq_false_iff_ne.mpr ho
  unfold fetch
  rw [hne]
  exact ⟨rfl, rfl, rfl, rfl⟩

/-- C9 witness: a concrete `GET /status` request. -/
theorem status_route_not_found_witness :
    (fetch exampleConfig worldOk ⟨"GET", "/status", "", .ok .null⟩).1.status
        = 404
    ∧ (fetch exampleConfig worldOk ⟨"GET", "/status", "", .ok .null⟩).1.body
        = .text "Not Found"
    ∧ banner
        = "🚀 MVola API Wrapper is running!\n\nEndpoints:\n- GET /test\n- POST /auth\n- POST /payment\n- "
          ++ "GET /status" ++ "\n- POST /webhook"
    ∧ (fetch exampleConfig worldOk ⟨"GET", "/", "", .ok .null⟩).1.body
        = .text banner :=
  status_route_not_found exampleConfig worldOk "GET" "" (.ok .null)
    (by decide)

/-- C6 counterexample: `OPTIONS` is a non-POST method, yet an `OPTIONS`
request to `/auth` is answered by the preflight branch with status 200, not
405. -/
theorem non_post_405_cex :
    ("OPTIONS" : String) ≠ "POST"
    ∧ (fetch exampleConfig worldOk
        ⟨"OPTIONS", "/auth", "", .ok .null⟩).1.status = 200
    ∧ (200 : Nat) ≠ 405 :=
  ⟨by decide, rfl, by decide⟩

/-- C6 (amended): for every request to `/auth`, `/payment` or `/webhook`
whose method is neither POST nor OPTIONS, the response status is exactly
405. -/
theorem non_post_non_options_405 (cfg : MvolaConfig) (w : World)
    (m p q : String) (b : Except String Json)
    (hp : p = "/auth" ∨ p = "/payment" ∨ p = "/webhook")
    (hm : m ≠ "POST") (ho : m ≠ "OPTIONS") :
    (fetch cfg w ⟨m, p, q, b⟩).1.status = 405 := by
  have hne : (m == "OPTIONS") = false := beq_eq_false_iff_ne.mpr ho
  have hpost : (m != "POST") = true := bne_iff_ne.mpr hm
  rcases hp with h | h | h <;> subst h <;>
    simp [fetch, handlerCore, respond, hne, hpost]

/-- C6 witness: a concrete `GET /auth` request receives 405. -/
theorem non_post_non_options_405_witness :
    (fetch exampleConfig worldOk ⟨"GET", "/auth", "", .ok .null⟩).1.status
      = 405 :=
  non_post_non_options_405 exampleConfig worldOk "GET" "/auth" ""
    (.ok .null) (Or.inl rfl) (by decide) (by decide)

/-- C2: when the token-endpoint call yields a non-success HTTP status, a
transport-level error or a body that is not valid JSON, `authenticateMvola`
returns the uniform failure signal (`none`, i.e. `null`), both `POST /auth`
and `POST /payment` answer 401 with `{error: "Authentication failed"}`, and
the merchant-pay endpoint is never called in either request. -/
theorem auth_failure_uniform_401 (cfg : MvolaConfig) (w : World)
    (qa qp : String) (ba bp : Except String Json)
    (h : w.tokenOutcome.isFail = true) :
    authenticateMvola w = none
    ∧ (fetch cfg w ⟨"POST", "/auth", qa, ba⟩).1.status = 401
    ∧ (fetch cfg w ⟨"POST", "/auth", qa, ba⟩).1.body
        = .json (.obj [("error", .str "Authentication failed")])
    ∧ (fetch cfg w ⟨"POST", "/auth", qa, ba⟩).2 = []
    ∧ (fetch cfg w ⟨"POST", "/payment", qp, bp⟩).1.status = 401
    ∧ (fetch cfg w ⟨"POST", "/payment", qp, bp⟩).1.body
        = .json (.obj [("error", .str "Authentication failed")])
    ∧ (fetch cfg w ⟨"POST", "/payment", qp, bp⟩).2 = [] := by
  obtain ⟨tk, mo, now⟩ := w
  cases tk with
  | transportError msg => exact ⟨rfl, rfl, rfl, rfl, rfl, rfl, rfl⟩
  | httpError st t => exact ⟨rfl, rfl, rfl, rfl, rfl, rfl, rfl⟩
  | okBadJson msg => exact ⟨rfl, rfl, rfl, rfl, rfl, rfl, rfl⟩
  | okJson r => simp [TokenOutcome.isFail] at h

/-- C2 witness: a 401 token reply, with arbitrary request bodies. -/
theorem auth_failure_uniform_401_witness :
    authenticateMvola worldAuthFail = none
    ∧ (fetch exampleConfig worldAuthFail
        ⟨"POST", "/auth", "", .ok .null⟩).1.status = 401
    ∧ (fetch exampleConfig worldAuthFail
        ⟨"POST", "/auth", "", .ok .null⟩).1.body
        = .json (.obj [("error", .str "Authentication failed")])
    ∧ (fetch exampleConfig worldAuthFail ⟨"POST", "/auth", "", .ok .null⟩).2
        = []
    ∧ (fetch exampleConfig worldAuthFail
        ⟨"POST", "/payment", "", .ok examplePayment⟩).1.status = 401
    ∧ (fetch exampleConfig worldAuthFail
        ⟨"POST", "/payment", "", .ok examplePayment⟩).1.body
        = .json (.obj [("error", .str "Authentication failed")])
    ∧ (fetch exampleConfig worldAuthFail
        ⟨"POST", "/payment", "", .ok examplePayment⟩).2 = [] :=
  auth_failure_uniform_401 exampleConfig worldAuthFail "" ""
    (.ok .null) (.ok examplePayment) rfl

/-- C8: every non-OPTIONS request to `/test` is answered with status 200,
and the body's `config.hasCredentials` field is `true` exactly when both
the consumer key and the consumer secret are non-empty strings. -/
theorem test_route_hasCredentials (cfg : MvolaConfig) (w : World)
    (m q : String) (b : Except String Json) (ho : m ≠ "OPTIONS") :
    (fetch cfg w ⟨m, "/test", q, b⟩).1.status = 200
    ∧ (fetch cfg w ⟨m, "/test", q, b⟩).1.body = .json (testBody cfg w)
    ∧ (((testBody cfg w).getField "config").bind
         (fun c => c.getField "hasCredentials") = some (.bool true)
       ↔ cfg.CONSUMER_KEY ≠ "" ∧ cfg.CONSUMER_SECRET ≠ "") := by
  have hne : (m == "OPTIONS") = false := beq_eq_false_iff_ne.mpr ho
  refine ⟨?_, ?_, ?_⟩
  · unfold fetch; rw [hne]; rfl
  · unfold fetch; rw [hne]; rfl
  · have hred : ((testBody cfg w).getField "config").bind
        (fun c => c.getField "hasCredentials")
        = some (.bool ((cfg.CONSUMER_KEY != "")
            && (cfg.CONSUMER_SECRET != ""))) := rfl
    rw [hred]
    simp [Bool.and_eq_true, bne_iff_ne]

/-- C8 witness: a `GET /test` request against a configuration with
non-empty credentials. -/
theorem test_route_hasCredentials_witness :
    (fetch exampleConfig worldOk ⟨"GET", "/test", "", .ok .null⟩).1.status
        = 200
    ∧ (fetch exampleConfig worldOk ⟨"GET", "/test", "", .ok .null⟩).1.body
        = .json (testBody exampleConfig worldOk)
    ∧ (((testBody exampleConfig worldOk).getField "config").bind
         (fun c => c.getField "hasCredentials") = some (.bool true)
       ↔ exampleConfig.CONSUMER_KEY ≠ ""
         ∧ exampleConfig.CONSUMER_SECRET ≠ "") :=
  test_route_hasCredentials exampleConfig worldOk "GET" "" (.ok .null)
    (by decide)

/-- Every call transmitted by `initiateMvolaPayment` carries exactly the
`paymentData` it was given as its body. -/
theorem initiateMvolaPayment_calls (cfg : MvolaConfig) (pd : Json)
    (tok : String) (w : World) :
    ∀ c ∈ (initiateMvolaPayment cfg pd tok w).2, c.body = pd := by
  intro c hc
  unfold initiateMvolaPayment at hc
  rcases hD : debitPartyAccess pd with m | u <;> rw [hD] at hc
  · simp at hc
  · cases hM : w.merchantOutcome with
    | transportError m => rw [hM] at hc; simp at hc; rw [hc]
    | reply st b =>
      cases b with
      | error m => rw [hM] at hc; simp at hc; rw [hc]
      | ok bj => rw [hM] at hc; simp at hc; rw [hc]

/-- C1: for every `POST /payment` request whose body conforms to the
`MvolaPaymentRequest` interface, every object transmitted to the provider
merchant-pay endpoint has its three correlation fields `requestDate`,
`requestingOrganisationTransactionReference` and
`originalTransactionReference` equal to the empty string, regardless of the
values the caller supplied for them. -/
theorem payment_overrides_correlation_fields (cfg : MvolaConfig) (w : World)
    (q : String) (j : Json) (h : isPaymentRequest j = true) :
    ∀ c ∈ (fetch cfg w ⟨"POST", "/payment", q, .ok j⟩).2,
      c.body.getField "requestDate" = some (.str "")
      ∧ c.body.getField "requestingOrganisationTransactionReference"
          = some (.str "")
      ∧ c.body.getField "originalTransactionReference" = some (.str "") := by
  obtain ⟨fs, rfl⟩ : ∃ fs, j = .obj fs := by
    cases j <;> first | exact ⟨_, rfl⟩ | simp [isPaymentRequest] at h
  obtain ⟨fs2, hforce, h1, h2, h3, _⟩ := forceCorrelationFields_obj fs
  intro c hc
  cases hA : authenticateMvola w with
  | none => simp [fetch, handlerCore, hA] at hc
  | some a =>
    have htr : (fetch cfg w ⟨"POST", "/payment", q, .ok (.obj fs)⟩).2
        = (initiateMvolaPayment cfg (.obj fs2) a.access_token w).2 := by
      simp [fetch, handlerCore, hA, hforce]
    rw [htr] at hc
    rw [initiateMvolaPayment_calls cfg (.obj fs2) a.access_token w c hc]
    exact ⟨h1, h2, h3⟩

/-- C1 witness: a body with all three correlation fields non-empty; with
successful authentication exactly one call is transmitted, and its
correlation fields are all `""`. -/
theorem payment_overrides_correlation_fields_witness :
    isPaymentRequest examplePayment = true
    ∧ (fetch exampleConfig worldOk
        ⟨"POST", "/payment", "", .ok examplePayment⟩).2.length = 1
    ∧ ∀ c ∈ (fetch exampleConfig worldOk
          ⟨"POST", "/payment", "", .ok examplePayment⟩).2,
        c.body.getField "requestDate" = some (.str "")
        ∧ c.body.getField "requestingOrganisationTransactionReference"
            = some (.str "")
        ∧ c.body.getField "originalTransactionReference" = some (.str "") :=
  ⟨rfl, rfl,
   payment_overrides_correlation_fields exampleConfig worldOk ""
     examplePayment rfl⟩

/-- C3 counterexample: a well-formed payment body whose `debitParty` list is
empty makes `initiateMvolaPayment` return the synthesized
`{status: 500, data: {error: message}}` even though the provider world
would reply cleanly with status 200 and a valid JSON body — so the
provider's status is not passed through, and the synthesized 500 arises
from neither a transport-level exception nor a malformed provider
response. -/
theorem payment_passthrough_cex :
    isPaymentRequest emptyDebitPayment = true
    ∧ worldOk.merchantOutcome
        = .reply 200 (.ok (.obj [("status", .str "pending")]))
    ∧ (initiateMvolaPayment exampleConfig emptyDebitPayment "tok123"
        worldOk).1.status = 500
    ∧ (500 : Nat) ≠ 200
    ∧ (initiateMvolaPayment exampleConfig emptyDebitPayment "tok123"
        worldOk).1.data
        = .obj [("error", .str (cannotReadMsg "undefined" "value"))] :=
  ⟨rfl, rfl, rfl, by decide, rfl⟩

/-- C3 (amended): whenever the header construction's read of
`debitParty[0].value` succeeds, `initiateMvolaPayment` passes the
provider's status and parsed JSON body through unchanged, and synthesizes
`{status: 500, data: {error: message}}` on a transport-level exception or a
malformed (non-JSON) provider response; when that read fails, the same
synthesized 500 shape is returned with the `TypeError` message; no other
outcome is possible. -/
theorem initiateMvolaPayment_outcomes (cfg : MvolaConfig) (j : Json)
    (tok : String) (w : World) :
    (∀ u s body, debitPartyAccess j = .ok u
      → w.merchantOutcome = .reply s (.ok body)
      → (initiateMvolaPayment cfg j tok w).1 = ⟨s, body⟩)
    ∧ (∀ u msg, debitPartyAccess j = .ok u
      → w.merchantOutcome = .transportError msg
      → (initiateMvolaPayment cfg j tok w).1
          = ⟨500, .obj [("error", .str msg)]⟩)
    ∧ (∀ u s msg, debitPartyAccess j = .ok u
      → w.merchantOutcome = .reply s (.error msg)
      → (initiateMvolaPayment cfg j tok w).1
          = ⟨500, .obj [("error", .str msg)]⟩)
    ∧ (∀ msg, debitPartyAccess j = .error msg
      → (initiateMvolaPayment cfg j tok w).1
          = ⟨500, .obj [("error", .str msg)]⟩)
    ∧ ((∃ s body, (initiateMvolaPayment cfg j tok w).1 = ⟨s, body⟩
          ∧ w.merchantOutcome = .reply s (.ok body))
       ∨ (∃ msg, (initiateMvolaPayment cfg j tok w).1
            = ⟨500, .obj [("error", .str msg)]⟩)) := by
  refine ⟨?_, ?_, ?_, ?_, ?_⟩
  · intro u s body hD hM
    simp [initiateMvolaPayment, hD, hM]
  · intro u msg hD hM
    simp [initiateMvolaPayment, hD, hM]
  · intro u s msg hD hM
    simp [initiateMvolaPayment, hD, hM]
  · intro msg hD
    simp [initiateMvolaPayment, hD]
  · rcases hD : debitPartyAccess j with msg | u
    · exact Or.inr ⟨msg, by simp [initiateMvolaPayment, hD]⟩
    · cases hM : w.merchantOutcome with
      | transportError msg =>
        exact Or.inr ⟨msg, by simp [initiateMvolaPayment, hD, hM]⟩
      | reply st b =>
        cases b with
        | error msg =>
          exact Or.inr ⟨msg, by simp [initiateMvolaPayment, hD, hM]⟩
        | ok bj =>
          exact Or.inl ⟨st, bj, by simp [initiateMvolaPayment, hD, hM], rfl⟩

/-- C3 witness: a clean provider reply is passed through unchanged. -/
theorem initiateMvolaPayment_outcomes_witness :
    (initiateMvolaPayment exampleConfig examplePayment "tok123" worldOk).1
      = ⟨200, .obj [("status", .str "pending")]⟩ :=
  (initiateMvolaPayment_outcomes exampleConfig examplePayment "tok123"
    worldOk).1 () 200 (.obj [("status", .str "pending")]) rfl rfl

/-- C4 counterexample: a `POST /payment` request with a well-formed body
whose `debitParty` list is empty (authentication succeeding) is answered
with status 500, but its body is the serialized payment result
`{status: 500, data: {error: message}}` — it has no top-level `error`
field, so it is not the top-level guard's
`{error: "Internal server error", message: ...}` body. -/
theorem empty_debitParty_cex :
    isPaymentRequest emptyDebitPayment = true
    ∧ (fetch exampleConfig worldOk
        ⟨"POST", "/payment", "", .ok emptyDebitPayment⟩).1.status = 500
    ∧ (fetch exampleConfig worldOk
        ⟨"POST", "/payment", "", .ok emptyDebitPayment⟩).1.body
        = .json (.obj [("status", .num 500),
            ("data",
             .obj [("error", .str (cannotReadMsg "undefined" "value"))])])
    ∧ (Json.obj [("status", .num 500),
        ("data",
         .obj [("error", .str (cannotReadMsg "undefined" "value"))])]).getField
          "error" = none :=
  ⟨rfl, rfl, rfl, rfl⟩

/-- C4 (amended): for every `POST /payment` request (after successful
authentication) whose well-formed body has an empty `debitParty` list, the
index-out-of-range class `TypeError` is caught by `initiateMvolaPayment`'s
own `catch` — not by the top-level guard — so the client receives status
500 with the serialized payment result
`{status: 500, data: {error: message}}` as body, and the merchant-pay
endpoint is never called. -/
theorem empty_debitParty_caught_locally (cfg : MvolaConfig) (w : World)
    (q : String) (j : Json) (a : MvolaAuthResponse)
    (hA : authenticateMvola w = some a)
    (hj : isPaymentRequest j = true)
    (hd : j.getField "debitParty" = some (.arr [])) :
    (fetch cfg w ⟨"POST", "/payment", q, .ok j⟩).1.status = 500
    ∧ (fetch cfg w ⟨"POST", "/payment", q, .ok j⟩).1.body
        = .json (.obj [("status", .num 500),
            ("data",
             .obj [("error", .str (cannotReadMsg "undefined" "value"))])])
    ∧ (fetch cfg w ⟨"POST", "/payment", q, .ok j⟩).2 = [] := by
  obtain ⟨fs, rfl⟩ : ∃ fs, j = .obj fs := by
    cases j <;> first | exact ⟨_, rfl⟩ | simp [isPaymentRequest] at hj
  obtain ⟨fs2, hforce, _, _, _, hother⟩ := forceCorrelationFields_obj fs
  have hd2 : (Json.obj fs2).getField "debitParty" = some (.arr []) := by
    rw [hother "debitParty" (by decide) (by decide) (by decide)]
    exact hd
  have hacc : debitPartyAccess (.obj fs2)
      = .error (cannotReadMsg "undefined" "value") := by
    unfold debitPartyAccess
    rw [hd2]
    rfl
  refine ⟨?_, ?_, ?_⟩ <;>
    simp [fetch, handlerCore, hA, hforce, initiateMvolaPayment, hacc,
      respond, paymentResultJson]

/-- C4 witness: the concrete empty-`debitParty` request of the
counterexample, through the amended theorem. -/
theorem empty_debitParty_caught_locally_witness :
    (fetch exampleConfig worldOk
        ⟨"POST", "/payment", "", .ok emptyDebitPayment⟩).1.status = 500
    ∧ (fetch exampleConfig worldOk
        ⟨"POST", "/payment", "", .ok emptyDebitPayment⟩).1.body
        = .json (.obj [("status", .num 500),
            ("data",
             .obj [("error", .str (cannotReadMsg "undefined" "value"))])])
    ∧ (fetch exampleConfig worldOk
        ⟨"POST", "/payment", "", .ok emptyDebitPayment⟩).2 = [] :=
  empty_debitParty_caught_locally exampleConfig worldOk ""
    emptyDebitPayment exampleAuth rfl rfl rfl

end MvolaWrapper
